import Mathlib

/-!
Verification of the blog-generation pipeline in `app.py` against its
specification.  The pure parts of the source (string helpers, the
English-language heuristic, the search-result filter, the five graph node
functions and the routing function) are embedded directly; the external
capabilities (the chat model, the Tavily web search and the `langdetect`
detector) are parameters, modelled as oracles that may fail
(`Except Unit`).  Python machine floats appear only in the heuristic's
`english_ratio` comparison against `0.25`; since the numerator is an
integer in `[0, 20]` and the denominator an integer in `[1, 20]`, the
quotient is never within half an ulp of `0.25` unless it is exactly
`0.25`, so the binary64 comparison agrees with the exact rational
comparison and the ratio is embedded as `ℚ`.
-/

namespace BlogGen

/-- Python truthiness of a string: a string is truthy iff non-empty. -/
def pyTruthy (s : String) : Bool := s ≠ ""

/-- Does `hay` start with `needle`?  (Structural recursion on character
lists, so the kernel can evaluate it on literals.) -/
def startsL : List Char → List Char → Bool
  | [], _ => true
  | _ :: _, [] => false
  | a :: as, b :: bs => a = b && startsL as bs

/-- Python's `needle in hay` substring test on character lists. -/
def containsL (needle : List Char) : List Char → Bool
  | [] => needle.isEmpty
  | c :: rest => startsL needle (c :: rest) || containsL needle rest

/-- Python's `needle in hay` substring test on strings. -/
def containsSub (hay needle : String) : Bool := containsL needle.data hay.data

/-- Python's `s.strip()` on a character list (Python also strips a few
rarer whitespace code points; the texts handled here contain none). -/
def trimL (l : List Char) : List Char :=
  ((l.dropWhile Char.isWhitespace).reverse.dropWhile Char.isWhitespace).reverse

/-- Python's `s.strip()` as a string. -/
def pyStrip (s : String) : String := String.mk (trimL s.data)

/-- Python's `s.lower()` (the texts handled here are ASCII). -/
def pyLower (s : String) : String := String.mk (s.data.map Char.toLower)

/-- Python's `s.upper()` (the texts handled here are ASCII). -/
def pyUpper (s : String) : String := String.mk (s.data.map Char.toUpper)

/-- Python's `s.strip('"')`: remove all leading and trailing `"` characters. -/
def stripQuotes (s : String) : String :=
  String.mk (((s.data.dropWhile (· = '"')).reverse.dropWhile (· = '"')).reverse)

/-- Python's `s.split("\n")[0]`: everything before the first newline. -/
def firstLine (s : String) : String := String.mk (s.data.takeWhile (· ≠ '\n'))

/-- Splitting a character list on whitespace runs, dropping empty pieces,
accumulating the current word reversed. -/
def wordsAux : List Char → List Char → List (List Char)
  | [], acc => if acc.isEmpty then [] else [acc.reverse]
  | c :: cs, acc =>
    if Char.isWhitespace c then
      if acc.isEmpty then wordsAux cs [] else acc.reverse :: wordsAux cs []
    else wordsAux cs (c :: acc)

/-- Python's whitespace `s.split()`: the list of words of a string. -/
def pyWords (s : String) : List (List Char) := wordsAux s.data []

/-- app.py lines 44-45: the fixed stopword list of the fallback heuristic. -/
def common_english_words : List String :=
  ["the", "and", "in", "to", "of", "is", "for", "with", "on", "that",
   "this", "are", "was", "be", "have", "it", "not", "they", "by", "from"]

/-- app.py lines 43-55: the heuristic fallback used when the primary
detector raises.  `sum(1 for word in common_english_words if f" {word} " in
f" {text_lower} ")` counts the distinct stopwords of the list that occur
space-delimited in the lowercased text. -/
def english_heuristic (text : String) : Bool :=
  let text_lower := pyLower text
  let english_word_count :=
    (common_english_words.filter
      (fun word => containsSub (" " ++ text_lower ++ " ") (" " ++ word ++ " "))).length
  let text_words := (pyWords text_lower).length
  if text_words = 0 then false
  else
    let english_ratio : ℚ := (english_word_count : ℚ) / ((min 20 text_words : ℕ) : ℚ)
    decide (5 ≤ english_word_count ∨ 1 / 4 < english_ratio)

/-- app.py lines 34-55: `is_english`.  The primary detector (`langdetect`'s
`detect`) is a parameter returning a language code or raising. -/
def is_english (detect : String → Except Unit String) (text : String) : Bool :=
  if text = "" ∨ (pyStrip text).length < 50 then false
  else
    match detect text with
    | .ok code => code = "en"
    | .error _ => english_heuristic text

/-- Number of distinct stopwords of `common_english_words` occurring
space-delimited in the lowercased text (the heuristic's match count). -/
def english_word_count_of (text : String) : ℕ :=
  (common_english_words.filter
    (fun word => containsSub (" " ++ pyLower text ++ " ") (" " ++ word ++ " "))).length

/-- Number of whitespace-separated words of the lowercased text. -/
def text_word_count (text : String) : ℕ := (pyWords (pyLower text)).length

/-- The heuristic's ratio `matchCount / min(20, wordCount)` as an exact
rational. -/
def english_ratio_of (text : String) : ℚ :=
  (english_word_count_of text : ℚ) / ((min 20 (text_word_count text) : ℕ) : ℚ)

/-- A raw search-provider result: a Python dict whose `"title"`,
`"content"` and `"url"` keys may each be absent. -/
structure RawResult where
  title : Option String
  content : Option String
  url : Option String
deriving DecidableEq

/-- Python's `result.get(key, "")`. -/
def pyGet (v : Option String) : String := v.getD ""

/-- app.py line 109: the source filter's video test,
`"youtube.com" in result.get("url", "").lower()`. -/
def is_youtube (r : RawResult) : Bool :=
  containsSub (pyLower (pyGet r.url)) "youtube.com"

/-- app.py lines 106-113: keep a result iff its URL does not contain
`youtube.com` (lowercased) and `content + " " + title` passes `is_english`. -/
def filter_results (detect : String → Except Unit String)
    (results : List RawResult) : List RawResult :=
  results.filter (fun r =>
    !is_youtube r && is_english detect (pyGet r.content ++ " " ++ pyGet r.title))

/-- app.py line 119: `f"{result['title']}\n{result['content']}\n(Source:
{result['url']})"`; direct subscripting raises `KeyError` on a missing key. -/
def formatResult (r : RawResult) : Except Unit String :=
  match r.title, r.content, r.url with
  | some t, some c, some u => .ok (t ++ "\n" ++ c ++ "\n(Source: " ++ u ++ ")")
  | _, _, _ => .error ()

/-- app.py lines 17-23: the `BlogState` record threaded through the run.
History entries are kept as their text content. -/
structure BlogState where
  topic : String
  title : String
  search_results : List String
  blog_content : List String
  reviewed_content : List String
  is_blog_ready : String
deriving DecidableEq

/-- The external capabilities: the chat model as an oracle indexed by a
call counter, the web-search tool, and the language detector.  Each call
may fail (`ProviderError`, or `langdetect` raising). -/
structure Caps where
  llm : ℕ → Except Unit String
  web : String → ℕ → Except Unit (List RawResult)
  detect : String → Except Unit String

/-- app.py lines 85-94: `generate_title`.  Writes the first line of the
model response, stripped of surrounding quotes, to `title`. -/
def generate_title (caps : Caps) (s : BlogState) (k : ℕ) :
    Except Unit (BlogState × ℕ) :=
  match caps.llm k with
  | .error e => .error e
  | .ok resp => .ok ({ s with title := stripQuotes (firstLine resp) }, k + 1)

/-- app.py line 101: the search query synthesized from the topic. -/
def search_query (topic : String) : String := "Latest data on " ++ topic

/-- app.py line 98: `TavilySearchResults(max_results=2)`. -/
def tavily_max_results : ℕ := 2

/-- app.py lines 96-123: `search_web`, instrumented with the list of
`(query, maxResults)` calls it issues to the web-search capability.
Filters the raw results, formats the survivors and appends them to
`search_results`. -/
def search_web_logged (caps : Caps) (s : BlogState) (k : ℕ) :
    Except Unit (BlogState × ℕ) × List (String × ℕ) :=
  let q := search_query s.topic
  let res : Except Unit (BlogState × ℕ) :=
    match caps.web q tavily_max_results with
    | .error e => .error e
    | .ok rs =>
      match (filter_results caps.detect rs).mapM formatResult with
      | .error e => .error e
      | .ok msgs => .ok ({ s with search_results := s.search_results ++ msgs }, k)
  (res, [(q, tavily_max_results)])

/-- app.py lines 96-123: `search_web` as a graph node. -/
def search_web (caps : Caps) (s : BlogState) (k : ℕ) :
    Except Unit (BlogState × ℕ) :=
  (search_web_logged caps s k).1

/-- app.py lines 126-139: `generate_content`.  Appends the model response
to `blog_content`. -/
def generate_content (caps : Caps) (s : BlogState) (k : ℕ) :
    Except Unit (BlogState × ℕ) :=
  match caps.llm k with
  | .error e => .error e
  | .ok resp => .ok ({ s with blog_content := s.blog_content ++ [resp] }, k + 1)

/-- app.py lines 141-154: `review_content`.  Reads the last draft
(`state["blog_content"][-1]`, an `IndexError` when the list is empty) and
appends the critique to `reviewed_content`. -/
def review_content (caps : Caps) (s : BlogState) (k : ℕ) :
    Except Unit (BlogState × ℕ) :=
  match s.blog_content.getLast? with
  | none => .error ()
  | some _content =>
    match caps.llm k with
    | .error e => .error e
    | .ok feedback =>
      .ok ({ s with reviewed_content := s.reviewed_content ++ [feedback] }, k + 1)

/-- app.py lines 156-173: `evaluate_content`.  Reads the last draft and the
last critique, uppercases the trimmed model response and runs the source's
verdict test `"PASS" or "Pass" in verdict` — Python parses this as
`("PASS") or ("Pass" in verdict)`, whose first operand is a truthy
non-empty literal — then appends a verdict entry to `reviewed_content`. -/
def evaluate_content (caps : Caps) (s : BlogState) (k : ℕ) :
    Except Unit (BlogState × ℕ) :=
  match s.blog_content.getLast?, s.reviewed_content.getLast? with
  | some _c, some _f =>
    match caps.llm k with
    | .error e => .error e
    | .ok resp =>
      let verdict := pyUpper (pyStrip resp)
      let ready := if pyTruthy "PASS" || containsSub verdict "Pass" then "Pass" else "Fail"
      .ok ({ s with
              is_blog_ready := ready,
              reviewed_content := s.reviewed_content ++ ["Verdict: " ++ resp] }, k + 1)
  | _, _ => .error ()

/-- app.py lines 175-176: `route_based_on_verdict`. -/
def route_based_on_verdict (s : BlogState) : String :=
  if s.is_blog_ready = "Pass" then "Pass" else "Fail"

/-- The five graph nodes of app.py lines 64-68, plus the terminal marker
`END`. -/
inductive NodeName
  | title_generator
  | search_web
  | content_generator
  | content_reviewer
  | quality_check
  | terminal
deriving DecidableEq

/-- app.py line 80: the conditional edge map `{"Pass": END, "Fail":
"content_generator"}` attached to `quality_check`; `none` means the routing
key is absent from the map. -/
def verdict_edges (v : String) : Option NodeName :=
  if v = "Pass" then some .terminal
  else if v = "Fail" then some .content_generator
  else none

/-- app.py lines 70-81: the edge relation of the compiled graph, with the
`START → {title_generator, search_web}` fan-out serialized as
`title_generator` then `search_web` (spec §4.1: the two steps write
disjoint fields, so any order yields the same state). -/
def nextNode (n : NodeName) (s : BlogState) : Option NodeName :=
  match n with
  | .title_generator => some .search_web
  | .search_web => some .content_generator
  | .content_generator => some .content_reviewer
  | .content_reviewer => some .quality_check
  | .quality_check => verdict_edges (route_based_on_verdict s)
  | .terminal => none

/-- Dispatch a node name to its node function (app.py lines 64-68). -/
def runNode (caps : Caps) (n : NodeName) (s : BlogState) (k : ℕ) :
    Except Unit (BlogState × ℕ) :=
  match n with
  | .title_generator => generate_title caps s k
  | .search_web => search_web caps s k
  | .content_generator => generate_content caps s k
  | .content_reviewer => review_content caps s k
  | .quality_check => evaluate_content caps s k
  | .terminal => .ok (s, k)

/-- Modelled from the spec: the Graph Executor (spec §4.1) — the compiled
LangGraph runtime that `init_graph` returns is library code absent from the
sources, so its execution contract is taken from the spec: run the current
node, abort on failure, follow the unique outgoing edge (the conditional
edge map for `quality_check`), and stop at the terminal marker.  `fuel`
bounds the unbounded retry loop: `none` means the run was still looping
when fuel ran out.  The returned list records the nodes executed, in
order. -/
def runFrom (caps : Caps) :
    ℕ → NodeName → BlogState → ℕ → List NodeName →
    Option (Except Unit (BlogState × List NodeName))
  | 0, _, _, _, _ => none
  | fuel + 1, n, s, k, log =>
    if n = NodeName.terminal then some (.ok (s, log))
    else
      match runNode caps n s k with
      | .error e => some (.error e)
      | .ok (s', k') =>
        match nextNode n s' with
        | none => some (.error ())
        | some n' => runFrom caps fuel n' s' k' (log ++ [n])

/-- app.py lines 233-240: the initial state built for a topic. -/
def initState (topic : String) : BlogState :=
  { topic := topic, title := "", search_results := [], blog_content := [],
    reviewed_content := [], is_blog_ready := "" }

/-- app.py line 243: one full pipeline run on a fresh state. -/
def runPipeline (caps : Caps) (topic : String) (fuel : ℕ) :
    Option (Except Unit (BlogState × List NodeName)) :=
  runFrom caps fuel .title_generator (initState topic) 0 []

/-- How many times a node occurs in an execution log. -/
def execCount (n : NodeName) (log : List NodeName) : ℕ :=
  (log.filter (fun m => m = n)).length

/-- The 2-to-1 relation between `reviewed_content` and `blog_content`
restated at each node: it holds exactly at the cycle boundaries and is
offset inside a cycle. -/
def cycleInv : NodeName → BlogState → Prop
  | .title_generator, s => s.reviewed_content.length = 2 * s.blog_content.length
  | .search_web, s => s.reviewed_content.length = 2 * s.blog_content.length
  | .content_generator, s => s.reviewed_content.length = 2 * s.blog_content.length
  | .content_reviewer, s => s.reviewed_content.length + 2 = 2 * s.blog_content.length
  | .quality_check, s => s.reviewed_content.length + 1 = 2 * s.blog_content.length
  | .terminal, s => s.reviewed_content.length = 2 * s.blog_content.length

/-- The nodes reachable once the draft-review-gate cycle has been entered. -/
def loopNode (n : NodeName) : Prop :=
  n = NodeName.content_generator ∨ n = NodeName.content_reviewer ∨
  n = NodeName.quality_check ∨ n = NodeName.terminal

/-- A capability bundle whose model always answers `"ok response text"`,
whose search returns no results and whose detector raises. -/
def okCaps : Caps :=
  { llm := fun _ => .ok "ok response text",
    web := fun _ _ => .ok [],
    detect := fun _ => .error () }

/-- A capability bundle whose model answers `"FAIL"` on every call. -/
def failCaps : Caps :=
  { llm := fun _ => .ok "FAIL",
    web := fun _ _ => .ok [],
    detect := fun _ => .error () }

/-- A mid-cycle state with one draft and one critique recorded. -/
def demoState : BlogState :=
  { topic := "t", title := "T", search_results := [],
    blog_content := ["draft"], reviewed_content := ["critique"],
    is_blog_ready := "" }

/-- The state of the `okCaps` run at the fan-in point, entering the cycle. -/
def demoMid : BlogState := { initState "AI" with title := "ok response text" }

/-- The `okCaps` run state after the drafting node. -/
def demoDraft : BlogState := { demoMid with blog_content := ["ok response text"] }

/-- The `okCaps` run state after the reviewing node. -/
def demoReviewed : BlogState :=
  { demoDraft with reviewed_content := ["ok response text"] }

/-- The final state of the `okCaps` run. -/
def demoFinal : BlogState :=
  { topic := "AI", title := "ok response text", search_results := [],
    blog_content := ["ok response text"],
    reviewed_content := ["ok response text", "Verdict: ok response text"],
    is_blog_ready := "Pass" }

/-- The execution log of the full `okCaps` run. -/
def demoLog : List NodeName :=
  [.title_generator, .search_web, .content_generator, .content_reviewer,
   .quality_check]

/-- The execution log of the `okCaps` run restricted to the cycle. -/
def demoLoopLog : List NodeName :=
  [.content_generator, .content_reviewer, .quality_check]

/-- A 63-character English sample (6 distinct stopwords: the, and, in,
to, of, that). -/
def englishText : String :=
  "the cat and the dog went to the park in the morning of that day"

/-- A detector that always raises. -/
def noDetect : String → Except Unit String := fun _ => .error ()

/-- A detector that reports English for every input. -/
def enDetect : String → Except Unit String := fun _ => .ok "en"

/-- A raw result hosted on YouTube (mixed-case URL). -/
def ytResult : RawResult :=
  { title := some "clip", content := some "video page",
    url := some "https://www.YouTube.com/watch?v=abc" }

/-- A raw result with no "url" key and English text. -/
def noUrlResult : RawResult :=
  { title := some "report", content := some englishText, url := none }

theorem execCount_append (n : NodeName) (l₁ l₂ : List NodeName) :
    execCount n (l₁ ++ l₂) = execCount n l₁ + execCount n l₂ := by
  simp [execCount, List.filter_append]

theorem execCount_single (n m : NodeName) :
    execCount n [m] = if m = n then 1 else 0 := by
  by_cases h : m = n <;> simp [execCount, h]

theorem runFrom_zero (caps : Caps) (n : NodeName) (s : BlogState) (k : ℕ)
    (log : List NodeName) : runFrom caps 0 n s k log = none := rfl

theorem runFrom_terminal (caps : Caps) (fuel : ℕ) (s : BlogState) (k : ℕ)
    (log : List NodeName) :
    runFrom caps (fuel + 1) NodeName.terminal s k log = some (.ok (s, log)) := by
  simp [runFrom]

theorem runFrom_succ (caps : Caps) (fuel : ℕ) (n : NodeName) (s : BlogState)
    (k : ℕ) (log : List NodeName) (hn : n ≠ NodeName.terminal) :
    runFrom caps (fuel + 1) n s k log =
      match runNode caps n s k with
      | .error e => some (.error e)
      | .ok (s', k') =>
        match nextNode n s' with
        | none => some (.error ())
        | some n' => runFrom caps fuel n' s' k' (log ++ [n]) := by
  simp only [runFrom]
  rw [if_neg hn]

theorem runFrom_succ_err (caps : Caps) (fuel : ℕ) (n : NodeName) (s : BlogState)
    (k : ℕ) (log : List NodeName) (e : Unit) (hn : n ≠ NodeName.terminal)
    (hr : runNode caps n s k = .error e) :
    runFrom caps (fuel + 1) n s k log = some (.error e) := by
  rw [runFrom_succ caps fuel n s k log hn, hr]

theorem runFrom_succ_stuck (caps : Caps) (fuel : ℕ) (n : NodeName) (s : BlogState)
    (k : ℕ) (log : List NodeName) (s' : BlogState) (k' : ℕ)
    (hn : n ≠ NodeName.terminal) (hr : runNode caps n s k = .ok (s', k'))
    (hx : nextNode n s' = none) :
    runFrom caps (fuel + 1) n s k log = some (.error ()) := by
  rw [runFrom_succ caps fuel n s k log hn, hr]
  simp [hx]

theorem runFrom_succ_ok (caps : Caps) (fuel : ℕ) (n : NodeName) (s : BlogState)
    (k : ℕ) (log : List NodeName) (s' : BlogState) (k' : ℕ) (n' : NodeName)
    (hn : n ≠ NodeName.terminal) (hr : runNode caps n s k = .ok (s', k'))
    (hx : nextNode n s' = some n') :
    runFrom caps (fuel + 1) n s k log = runFrom caps fuel n' s' k' (log ++ [n]) := by
  rw [runFrom_succ caps fuel n s k log hn, hr]
  simp [hx]

theorem generate_title_ok {caps : Caps} {s : BlogState} {k : ℕ}
    {s' : BlogState} {k' : ℕ} (h : generate_title caps s k = Except.ok (s', k')) :
    s'.topic = s.topic ∧ s'.search_results = s.search_results ∧
    s'.blog_content = s.blog_content ∧ s'.reviewed_content = s.reviewed_content ∧
    s'.is_blog_ready = s.is_blog_ready := by
  unfold generate_title at h
  cases hl : caps.llm k with
  | error e => rw [hl] at h; simp at h
  | ok resp =>
    rw [hl] at h
    simp at h
    obtain ⟨h1, -⟩ := h
    subst h1
    simp

theorem search_web_ok {caps : Caps} {s : BlogState} {k : ℕ}
    {s' : BlogState} {k' : ℕ} (h : search_web caps s k = Except.ok (s', k')) :
    s'.topic = s.topic ∧ s'.title = s.title ∧
    s'.blog_content = s.blog_content ∧ s'.reviewed_content = s.reviewed_content ∧
    s'.is_blog_ready = s.is_blog_ready := by
  unfold search_web search_web_logged at h
  simp only at h
  cases hw : caps.web (search_query s.topic) tavily_max_results with
  | error e => rw [hw] at h; simp at h
  | ok rs =>
    rw [hw] at h
    dsimp only at h
    cases hm : (filter_results caps.detect rs).mapM formatResult with
    | error e => rw [hm] at h; simp at h
    | ok msgs =>
      rw [hm] at h
      simp at h
      obtain ⟨h1, -⟩ := h
      subst h1
      simp

theorem generate_content_ok {caps : Caps} {s : BlogState} {k : ℕ}
    {s' : BlogState} {k' : ℕ} (h : generate_content caps s k = Except.ok (s', k')) :
    s'.topic = s.topic ∧ s'.title = s.title ∧ s'.search_results = s.search_results ∧
    s'.blog_content.length = s.blog_content.length + 1 ∧
    s'.reviewed_content = s.reviewed_content ∧
    s'.is_blog_ready = s.is_blog_ready := by
  unfold generate_content at h
  cases hl : caps.llm k with
  | error e => rw [hl] at h; simp at h
  | ok resp =>
    rw [hl] at h
    simp at h
    obtain ⟨h1, -⟩ := h
    subst h1
    simp

theorem review_content_ok {caps : Caps} {s : BlogState} {k : ℕ}
    {s' : BlogState} {k' : ℕ} (h : review_content caps s k = Except.ok (s', k')) :
    s'.topic = s.topic ∧ s'.title = s.title ∧ s'.search_results = s.search_results ∧
    s'.blog_content = s.blog_content ∧
    s'.reviewed_content.length = s.reviewed_content.length + 1 ∧
    s'.is_blog_ready = s.is_blog_ready := by
  unfold review_content at h
  cases hc : s.blog_content.getLast? with
  | none => rw [hc] at h; simp at h
  | some c =>
    rw [hc] at h
    cases hl : caps.llm k with
    | error e => rw [hl] at h; simp at h
    | ok feedback =>
      rw [hl] at h
      simp at h
      obtain ⟨h1, -⟩ := h
      subst h1
      simp

theorem evaluate_content_ok {caps : Caps} {s : BlogState} {k : ℕ}
    {s' : BlogState} {k' : ℕ} (h : evaluate_content caps s k = Except.ok (s', k')) :
    s'.topic = s.topic ∧ s'.title = s.title ∧ s'.search_results = s.search_results ∧
    s'.blog_content = s.blog_content ∧
    s'.reviewed_content.length = s.reviewed_content.length + 1 ∧
    s'.is_blog_ready = "Pass" := by
  unfold evaluate_content at h
  cases hc : s.blog_content.getLast? with
  | none => rw [hc] at h; simp at h
  | some c =>
    rw [hc] at h
    cases hf : s.reviewed_content.getLast? with
    | none => rw [hf] at h; simp at h
    | some f =>
      rw [hf] at h
      cases hl : caps.llm k with
      | error e => rw [hl] at h; simp at h
      | ok resp =>
        rw [hl] at h
        have hp : pyTruthy "PASS" = true := by decide
        simp [hp] at h
        obtain ⟨h1, -⟩ := h
        subst h1
        simp

theorem verdict_edges_mem {v : String} {n : NodeName} (h : verdict_edges v = some n) :
    n = NodeName.terminal ∨ n = NodeName.content_generator := by
  unfold verdict_edges at h
  split at h
  · exact Or.inl (Option.some.inj h).symm
  · split at h
    · exact Or.inr (Option.some.inj h).symm
    · exact absurd h (by simp)

theorem nextNode_terminal {n : NodeName} {s : BlogState}
    (h : nextNode n s = some NodeName.terminal) : s.is_blog_ready = "Pass" := by
  cases n <;> simp [nextNode] at h
  case quality_check =>
    rw [route_based_on_verdict] at h
    by_cases hp : s.is_blog_ready = "Pass"
    · exact hp
    · rw [if_neg hp] at h
      exact absurd h (by decide)

theorem runFrom_ok_pass (caps : Caps) :
    ∀ (fuel : ℕ) (n : NodeName) (s : BlogState) (k : ℕ) (log : List NodeName)
      (st : BlogState) (lg : List NodeName),
      runFrom caps fuel n s k log = some (Except.ok (st, lg)) →
      n ≠ NodeName.terminal → st.is_blog_ready = "Pass" := by
  intro fuel
  induction fuel with
  | zero => intro n s k log st lg h _; rw [runFrom_zero] at h; exact absurd h (by simp)
  | succ f ih =>
    intro n s k log st lg h hn
    cases hr : runNode caps n s k with
    | error e => rw [runFrom_succ_err caps f n s k log e hn hr] at h; simp at h
    | ok p =>
      obtain ⟨s', k'⟩ := p
      cases hx : nextNode n s' with
      | none => rw [runFrom_succ_stuck caps f n s k log s' k' hn hr hx] at h; simp at h
      | some n' =>
        rw [runFrom_succ_ok caps f n s k log s' k' n' hn hr hx] at h
        by_cases ht : n' = NodeName.terminal
        · subst ht
          have hpass := nextNode_terminal hx
          cases f with
          | zero => rw [runFrom_zero] at h; exact absurd h (by simp)
          | succ f' =>
            rw [runFrom_terminal] at h
            simp at h
            obtain ⟨h1, -⟩ := h
            rw [← h1]
            exact hpass
        · exact ih n' s' k' (log ++ [n]) st lg h ht

theorem runFrom_inv (caps : Caps) :
    ∀ (fuel : ℕ) (n : NodeName) (s : BlogState) (k : ℕ) (log : List NodeName)
      (st : BlogState) (lg : List NodeName),
      runFrom caps fuel n s k log = some (Except.ok (st, lg)) →
      cycleInv n s →
      st.reviewed_content.length = 2 * st.blog_content.length := by
  intro fuel
  induction fuel with
  | zero => intro n s k log st lg h _; rw [runFrom_zero] at h; exact absurd h (by simp)
  | succ f ih =>
    intro n s k log st lg h hinv
    by_cases hn : n = NodeName.terminal
    · subst hn
      rw [runFrom_terminal] at h
      simp at h
      obtain ⟨h1, -⟩ := h
      rw [← h1]
      exact hinv
    · cases hr : runNode caps n s k with
      | error e => rw [runFrom_succ_err caps f n s k log e hn hr] at h; simp at h
      | ok p =>
        obtain ⟨s', k'⟩ := p
        cases hx : nextNode n s' with
        | none => rw [runFrom_succ_stuck caps f n s k log s' k' hn hr hx] at h; simp at h
        | some n' =>
          rw [runFrom_succ_ok caps f n s k log s' k' n' hn hr hx] at h
          refine ih n' s' k' (log ++ [n]) st lg h ?_
          cases n with
          | terminal => exact absurd rfl hn
          | title_generator =>
            obtain ⟨-, -, hb, hrv, -⟩ := generate_title_ok hr
            simp [nextNode] at hx
            rw [← hx]
            simpa [cycleInv, hb, hrv] using hinv
          | search_web =>
            obtain ⟨-, -, hb, hrv, -⟩ := search_web_ok hr
            simp [nextNode] at hx
            rw [← hx]
            simpa [cycleInv, hb, hrv] using hinv
          | content_generator =>
            obtain ⟨-, -, -, hb, hrv, -⟩ := generate_content_ok hr
            simp [nextNode] at hx
            rw [← hx]
            simp only [cycleInv, hrv, hb] at hinv ⊢
            omega
          | content_reviewer =>
            obtain ⟨-, -, -, hb, hrv, -⟩ := review_content_ok hr
            simp [nextNode] at hx
            rw [← hx]
            simp only [cycleInv, hrv, hb] at hinv ⊢
            omega
          | quality_check =>
            obtain ⟨-, -, -, hb, hrv, -⟩ := evaluate_content_ok hr
            simp [nextNode] at hx
            rcases verdict_edges_mem hx with h1 | h1 <;> rw [h1] <;>
              simp only [cycleInv, hrv, hb] at hinv ⊢ <;> omega

theorem loopNode_next {n n' : NodeName} {s : BlogState} (hl : loopNode n)
    (hx : nextNode n s = some n') : loopNode n' := by
  rcases hl with h | h | h | h <;> subst h
  · simp [nextNode] at hx; rw [← hx]; exact Or.inr (Or.inl rfl)
  · simp [nextNode] at hx; rw [← hx]; exact Or.inr (Or.inr (Or.inl rfl))
  · simp [nextNode] at hx
    rcases verdict_edges_mem hx with h1 | h1 <;> rw [h1]
    · exact Or.inr (Or.inr (Or.inr rfl))
    · exact Or.inl rfl
  · simp [nextNode] at hx

theorem runFrom_frame (caps : Caps) :
    ∀ (fuel : ℕ) (n : NodeName) (s : BlogState) (k : ℕ) (log : List NodeName)
      (st : BlogState) (lg : List NodeName),
      runFrom caps fuel n s k log = some (Except.ok (st, lg)) →
      loopNode n →
      st.topic = s.topic ∧ st.title = s.title ∧
      st.search_results = s.search_results := by
  intro fuel
  induction fuel with
  | zero => intro n s k log st lg h _; rw [runFrom_zero] at h; exact absurd h (by simp)
  | succ f ih =>
    intro n s k log st lg h hl
    by_cases hn : n = NodeName.terminal
    · subst hn
      rw [runFrom_terminal] at h
      simp at h
      obtain ⟨h1, -⟩ := h
      rw [← h1]
      exact ⟨rfl, rfl, rfl⟩
    · cases hr : runNode caps n s k with
      | error e => rw [runFrom_succ_err caps f n s k log e hn hr] at h; simp at h
      | ok p =>
        obtain ⟨s', k'⟩ := p
        cases hx : nextNode n s' with
        | none => rw [runFrom_succ_stuck caps f n s k log s' k' hn hr hx] at h; simp at h
        | some n' =>
          rw [runFrom_succ_ok caps f n s k log s' k' n' hn hr hx] at h
          have hstep : s'.topic = s.topic ∧ s'.title = s.title ∧
              s'.search_results = s.search_results := by
            rcases hl with h1 | h1 | h1 | h1 <;> subst h1
            · obtain ⟨ht, htl, hs, -⟩ := generate_content_ok hr
              exact ⟨ht, htl, hs⟩
            · obtain ⟨ht, htl, hs, -⟩ := review_content_ok hr
              exact ⟨ht, htl, hs⟩
            · obtain ⟨ht, htl, hs, -⟩ := evaluate_content_ok hr
              exact ⟨ht, htl, hs⟩
            · exact absurd rfl hn
          obtain ⟨ih1, ih2, ih3⟩ := ih n' s' k' (log ++ [n]) st lg h (loopNode_next hl hx)
          exact ⟨ih1.trans hstep.1, ih2.trans hstep.2.1, ih3.trans hstep.2.2⟩

theorem runFrom_counts (caps : Caps) :
    ∀ (fuel : ℕ) (n : NodeName) (s : BlogState) (k : ℕ) (log : List NodeName)
      (st : BlogState) (lg : List NodeName),
      runFrom caps fuel n s k log = some (Except.ok (st, lg)) →
      loopNode n →
      execCount NodeName.title_generator lg = execCount NodeName.title_generator log ∧
      execCount NodeName.search_web lg = execCount NodeName.search_web log := by
  intro fuel
  induction fuel with
  | zero => intro n s k log st lg h _; rw [runFrom_zero] at h; exact absurd h (by simp)
  | succ f ih =>
    intro n s k log st lg h hl
    by_cases hn : n = NodeName.terminal
    · subst hn
      rw [runFrom_terminal] at h
      simp at h
      obtain ⟨-, h2⟩ := h
      rw [← h2]
      exact ⟨rfl, rfl⟩
    · cases hr : runNode caps n s k with
      | error e => rw [runFrom_succ_err caps f n s k log e hn hr] at h; simp at h
      | ok p =>
        obtain ⟨s', k'⟩ := p
        cases hx : nextNode n s' with
        | none => rw [runFrom_succ_stuck caps f n s k log s' k' hn hr hx] at h; simp at h
        | some n' =>
          rw [runFrom_succ_ok caps f n s k log s' k' n' hn hr hx] at h
          obtain ⟨ih1, ih2⟩ := ih n' s' k' (log ++ [n]) st lg h (loopNode_next hl hx)
          rw [ih1, ih2, execCount_append, execCount_append, execCount_single,
            execCount_single]
          have hgen : ¬n = NodeName.title_generator ∧ ¬n = NodeName.search_web := by
            rcases hl with h1 | h1 | h1 | h1 <;> subst h1 <;> exact ⟨by simp, by simp⟩
          rw [if_neg hgen.1, if_neg hgen.2]
          simp

theorem runPipeline_counts_once (caps : Caps) (topic : String) (fuel : ℕ)
    (st : BlogState) (lg : List NodeName)
    (h : runPipeline caps topic fuel = some (Except.ok (st, lg))) :
    execCount NodeName.title_generator lg = 1 ∧
    execCount NodeName.search_web lg = 1 := by
  unfold runPipeline at h
  cases fuel with
  | zero => rw [runFrom_zero] at h; exact absurd h (by simp)
  | succ f =>
    have hn1 : NodeName.title_generator ≠ NodeName.terminal := by simp
    cases hr1 : runNode caps .title_generator (initState topic) 0 with
    | error e => rw [runFrom_succ_err caps f _ _ _ _ e hn1 hr1] at h; simp at h
    | ok p =>
      obtain ⟨s1, k1⟩ := p
      have hx1 : nextNode NodeName.title_generator s1 = some NodeName.search_web := rfl
      rw [runFrom_succ_ok caps f _ _ _ _ s1 k1 _ hn1 hr1 hx1] at h
      cases f with
      | zero => rw [runFrom_zero] at h; exact absurd h (by simp)
      | succ f2 =>
        have hn2 : NodeName.search_web ≠ NodeName.terminal := by simp
        cases hr2 : runNode caps .search_web s1 k1 with
        | error e => rw [runFrom_succ_err caps f2 _ _ _ _ e hn2 hr2] at h; simp at h
        | ok p2 =>
          obtain ⟨s2, k2⟩ := p2
          have hx2 : nextNode NodeName.search_web s2 =
              some NodeName.content_generator := rfl
          rw [runFrom_succ_ok caps f2 _ _ _ _ s2 k2 _ hn2 hr2 hx2] at h
          obtain ⟨h1, h2⟩ :=
            runFrom_counts caps f2 _ s2 k2 _ st lg h (Or.inl rfl)
          rw [h1, h2]
          constructor <;> decide

/-- C1: spec §4.7 requires `evaluate_content` to uppercase the model
response and set the verdict to Pass iff it contains "PASS", else Fail.
The code sets "Pass" for every response: app.py line 168 reads
`"PASS" if "PASS" or "Pass" in verdict else "Fail"`, which Python parses
as `"PASS" if ("PASS") or ("Pass" in verdict) else "Fail"`, and the
non-empty literal `"PASS"` is always truthy, so the `else` branch (and
with it the graph's Fail routing) is unreachable. -/
theorem evaluate_content_always_pass (caps : Caps) (s : BlogState) (k : ℕ)
    (resp : String) (hllm : caps.llm k = .ok resp)
    (hc : s.blog_content ≠ []) (hf : s.reviewed_content ≠ []) :
    evaluate_content caps s k =
      .ok ({ s with
              is_blog_ready := "Pass",
              reviewed_content := s.reviewed_content ++ ["Verdict: " ++ resp] },
        k + 1) := by
  unfold evaluate_content
  cases hgc : s.blog_content.getLast? with
  | none => exact absurd (List.getLast?_eq_none_iff.mp hgc) hc
  | some c =>
    cases hgf : s.reviewed_content.getLast? with
    | none => exact absurd (List.getLast?_eq_none_iff.mp hgf) hf
    | some f =>
      rw [hllm]
      have hp : pyTruthy "PASS" = true := by decide
      simp [hp]

/-- C1 witness: the response "FAIL" — whose uppercasing does not contain
"PASS" — still yields verdict "Pass". -/
theorem evaluate_content_always_pass_w :
    failCaps.llm 0 = .ok "FAIL" ∧ demoState.blog_content ≠ [] ∧
    demoState.reviewed_content ≠ [] ∧
    evaluate_content failCaps demoState 0 =
      .ok ({ demoState with
              is_blog_ready := "Pass",
              reviewed_content := demoState.reviewed_content ++
                ["Verdict: " ++ "FAIL"] }, 0 + 1) ∧
    containsSub (pyUpper (pyStrip "FAIL")) "PASS" = false :=
  ⟨rfl, by decide, by decide,
   evaluate_content_always_pass failCaps demoState 0 "FAIL" rfl (by decide)
     (by decide),
   by decide⟩

/-- C2: a pipeline run that reaches the terminal marker (rather than
propagating a capability failure or still looping) returns a state whose
verdict is "Pass"; normal termination with verdict "Fail" is impossible. -/
theorem runPipeline_terminal_pass (caps : Caps) (topic : String) (fuel : ℕ)
    (st : BlogState) (lg : List NodeName)
    (h : runPipeline caps topic fuel = some (Except.ok (st, lg))) :
    st.is_blog_ready = "Pass" ∧ st.is_blog_ready ≠ "Fail" := by
  have hp := runFrom_ok_pass caps fuel NodeName.title_generator (initState topic)
    0 [] st lg h (by simp)
  exact ⟨hp, by rw [hp]; decide⟩

/-- C2 witness: a concrete completed run ends with verdict "Pass". -/
theorem runPipeline_terminal_pass_w :
    runPipeline okCaps "AI" 10 = some (Except.ok (demoFinal, demoLog)) ∧
    demoFinal.is_blog_ready = "Pass" ∧ demoFinal.is_blog_ready ≠ "Fail" :=
  ⟨rfl, runPipeline_terminal_pass okCaps "AI" 10 demoFinal demoLog rfl⟩

/-- C3: each completed draft-review-gate cycle appends exactly one entry to
`blog_content` (ContentDrafter) and exactly two to `reviewed_content` (one
critique by ContentReviewer, one verdict by QualityGate), and every
completed run satisfies `reviewed_content.length = 2 *
blog_content.length`. -/
theorem cycle_append_counts :
    (∀ (caps : Caps) (s : BlogState) (k : ℕ) (s' : BlogState) (k' : ℕ),
      generate_content caps s k = Except.ok (s', k') →
      s'.blog_content.length = s.blog_content.length + 1 ∧
      s'.reviewed_content = s.reviewed_content) ∧
    (∀ (caps : Caps) (s : BlogState) (k : ℕ) (s' : BlogState) (k' : ℕ),
      review_content caps s k = Except.ok (s', k') →
      s'.reviewed_content.length = s.reviewed_content.length + 1 ∧
      s'.blog_content = s.blog_content) ∧
    (∀ (caps : Caps) (s : BlogState) (k : ℕ) (s' : BlogState) (k' : ℕ),
      evaluate_content caps s k = Except.ok (s', k') →
      s'.reviewed_content.length = s.reviewed_content.length + 1 ∧
      s'.blog_content = s.blog_content) ∧
    (∀ (caps : Caps) (topic : String) (fuel : ℕ) (st : BlogState)
      (lg : List NodeName),
      runPipeline caps topic fuel = some (Except.ok (st, lg)) →
      st.reviewed_content.length = 2 * st.blog_content.length) := by
  refine ⟨?_, ?_, ?_, ?_⟩
  · intro caps s k s' k' h
    obtain ⟨-, -, -, hb, hrv, -⟩ := generate_content_ok h
    exact ⟨hb, hrv⟩
  · intro caps s k s' k' h
    obtain ⟨-, -, -, hb, hrv, -⟩ := review_content_ok h
    exact ⟨hrv, hb⟩
  · intro caps s k s' k' h
    obtain ⟨-, -, -, hb, hrv, -⟩ := evaluate_content_ok h
    exact ⟨hrv, hb⟩
  · intro caps topic fuel st lg h
    exact runFrom_inv caps fuel NodeName.title_generator (initState topic) 0 []
      st lg h (by simp [cycleInv, initState])

/-- C3 witness: the three cycle nodes of a concrete run append 1 draft, 1
critique and 1 verdict, and the completed run has `2 * 1 = 2` review
entries for its single draft. -/
theorem cycle_append_counts_w :
    (generate_content okCaps demoMid 1 = Except.ok (demoDraft, 2) ∧
      demoDraft.blog_content.length = demoMid.blog_content.length + 1 ∧
      demoDraft.reviewed_content = demoMid.reviewed_content) ∧
    (review_content okCaps demoDraft 2 = Except.ok (demoReviewed, 3) ∧
      demoReviewed.reviewed_content.length =
        demoDraft.reviewed_content.length + 1 ∧
      demoReviewed.blog_content = demoDraft.blog_content) ∧
    (evaluate_content okCaps demoReviewed 3 = Except.ok (demoFinal, 4) ∧
      demoFinal.reviewed_content.length =
        demoReviewed.reviewed_content.length + 1 ∧
      demoFinal.blog_content = demoReviewed.blog_content) ∧
    (runPipeline okCaps "AI" 10 = some (Except.ok (demoFinal, demoLog)) ∧
      demoFinal.reviewed_content.length = 2 * demoFinal.blog_content.length) :=
  ⟨⟨rfl, cycle_append_counts.1 okCaps demoMid 1 demoDraft 2 rfl⟩,
   ⟨rfl, cycle_append_counts.2.1 okCaps demoDraft 2 demoReviewed 3 rfl⟩,
   ⟨rfl, cycle_append_counts.2.2.1 okCaps demoReviewed 3 demoFinal 4 rfl⟩,
   ⟨rfl, cycle_append_counts.2.2.2 okCaps "AI" 10 demoFinal demoLog rfl⟩⟩

/-- C4: in every completed pipeline run, TitleGenerator and
WebEvidenceGatherer each execute exactly once, and any run segment made of
the retry-cycle nodes (entered at ContentDrafter) leaves `topic`, `title`
and `search_results` unchanged, so title and evidence are identical across
all cycles of one run. -/
theorem title_and_search_once_and_frame :
    (∀ (caps : Caps) (topic : String) (fuel : ℕ) (st : BlogState)
      (lg : List NodeName),
      runPipeline caps topic fuel = some (Except.ok (st, lg)) →
      execCount NodeName.title_generator lg = 1 ∧
      execCount NodeName.search_web lg = 1) ∧
    (∀ (caps : Caps) (fuel : ℕ) (s : BlogState) (k : ℕ) (log : List NodeName)
      (st : BlogState) (lg : List NodeName),
      runFrom caps fuel NodeName.content_generator s k log =
        some (Except.ok (st, lg)) →
      st.topic = s.topic ∧ st.title = s.title ∧
      st.search_results = s.search_results) := by
  constructor
  · intro caps topic fuel st lg h
    exact runPipeline_counts_once caps topic fuel st lg h
  · intro caps fuel s k log st lg h
    exact runFrom_frame caps fuel _ s k log st lg h (Or.inl rfl)

/-- C4 witness: the concrete run executes each fan-out node once, and its
cycle leaves topic, title and evidence untouched. -/
theorem title_and_search_once_and_frame_w :
    (runPipeline okCaps "AI" 10 = some (Except.ok (demoFinal, demoLog)) ∧
      execCount NodeName.title_generator demoLog = 1 ∧
      execCount NodeName.search_web demoLog = 1) ∧
    (runFrom okCaps 8 NodeName.content_generator demoMid 1 [] =
        some (Except.ok (demoFinal, demoLoopLog)) ∧
      demoFinal.topic = demoMid.topic ∧ demoFinal.title = demoMid.title ∧
      demoFinal.search_results = demoMid.search_results) :=
  ⟨⟨rfl, title_and_search_once_and_frame.1 okCaps "AI" 10 demoFinal demoLog rfl⟩,
   ⟨rfl, title_and_search_once_and_frame.2 okCaps 8 demoMid 1 [] demoFinal
      demoLoopLog rfl⟩⟩

/-- C5: when the trimmed text is at least 50 characters and the primary
detector raises, `is_english` falls back to counting which of the 20
stopwords occur space-delimited in the lowercased text; it returns false on
a zero word count and otherwise true iff the count is at least 5 or
`count / min(20, wordCount)` exceeds 1/4. -/
theorem is_english_fallback (detect : String → Except Unit String)
    (text : String) (hlen : 50 ≤ (pyStrip text).length)
    (hfail : detect text = .error ()) :
    is_english detect text =
      (if text_word_count text = 0 then false
       else decide (5 ≤ english_word_count_of text ∨
         1 / 4 < english_ratio_of text)) := by
  have hguard : ¬(text = "" ∨ (pyStrip text).length < 50) := by
    rintro (h | h)
    · subst h; exact absurd hlen (by decide)
    · omega
  unfold is_english
  rw [if_neg hguard, hfail]
  rfl

/-- C5 witness: a 63-character stopword-dense text with a raising detector
is accepted by the fallback (6 distinct stopword matches ≥ 5). -/
theorem is_english_fallback_w :
    50 ≤ (pyStrip englishText).length ∧ noDetect englishText = .error () ∧
    is_english noDetect englishText =
      (if text_word_count englishText = 0 then false
       else decide (5 ≤ english_word_count_of englishText ∨
         1 / 4 < english_ratio_of englishText)) ∧
    is_english noDetect englishText = true :=
  ⟨by decide, rfl,
   is_english_fallback noDetect englishText (by decide) rfl, by decide⟩

/-- C6: a text whose trimmed length is below 50 characters (the empty
string included) is rejected by `is_english` without consulting the
detector: the result is false and identical for every detector. -/
theorem is_english_short_false (d1 d2 : String → Except Unit String)
    (text : String) (hshort : (pyStrip text).length < 50) :
    is_english d1 text = false ∧ is_english d1 text = is_english d2 text := by
  have h : ∀ d : String → Except Unit String, is_english d text = false := by
    intro d
    unfold is_english
    rw [if_pos (Or.inr hshort)]
  exact ⟨h d1, (h d1).trans (h d2).symm⟩

/-- C6 witness: the empty string is rejected even by a detector that
reports English for everything. -/
theorem is_english_short_false_w :
    (pyStrip "").length < 50 ∧ is_english enDetect "" = false ∧
    is_english enDetect "" = is_english noDetect "" :=
  ⟨by decide, is_english_short_false enDetect noDetect "" (by decide)⟩

/-- C7: a raw result whose URL lowercased contains "youtube.com" never
survives the evidence filter, whatever the language check would say. -/
theorem youtube_always_excluded (detect : String → Except Unit String)
    (results : List RawResult) (r : RawResult)
    (hyt : containsSub (pyLower (pyGet r.url)) "youtube.com" = true) :
    r ∉ filter_results detect results := by
  intro hmem
  simp [filter_results, List.mem_filter, is_youtube, hyt] at hmem

/-- C7 witness: a mixed-case YouTube URL is excluded despite an
always-raising detector. -/
theorem youtube_always_excluded_w :
    containsSub (pyLower (pyGet ytResult.url)) "youtube.com" = true ∧
    ytResult ∉ filter_results noDetect [ytResult] :=
  ⟨by decide, youtube_always_excluded noDetect [ytResult] ytResult (by decide)⟩

/-- C8 (counterexample): at topic "Generative AI" the single web-search
call is not `("latest data on Generative AI", 2)`: the source's query
(app.py line 101) capitalizes "Latest". -/
theorem search_call_query_counterexample :
    (search_web_logged okCaps (initState "Generative AI") 0).2 ≠
      [("latest data on Generative AI", 2)] := by decide

/-- C8 (amended): WebEvidenceGatherer issues exactly one web-search call,
with query "Latest data on {topic}" and maximum-results bound 2. -/
theorem search_call_query_and_bound (caps : Caps) (s : BlogState) (k : ℕ) :
    (search_web_logged caps s k).2 = [("Latest data on " ++ s.topic, 2)] := rfl

/-- C9: the routing function returns "Fail" for every verdict other than
exactly "Pass" (the initial empty string included), so its result always
lies in the conditional edge map's key set and routing is total. -/
theorem route_total (s : BlogState) :
    (route_based_on_verdict s = "Pass" ∨ route_based_on_verdict s = "Fail") ∧
    (s.is_blog_ready ≠ "Pass" → route_based_on_verdict s = "Fail") ∧
    (verdict_edges (route_based_on_verdict s)).isSome = true := by
  unfold route_based_on_verdict
  by_cases h : s.is_blog_ready = "Pass"
  · rw [if_pos h]
    exact ⟨Or.inl rfl, fun hne => absurd h hne, by decide⟩
  · rw [if_neg h]
    exact ⟨Or.inr rfl, fun _ => rfl, by decide⟩

/-- C9 witness: the initial state's empty verdict routes to "Fail", a key
of the edge map. -/
theorem route_total_w :
    (initState "t").is_blog_ready ≠ "Pass" ∧
    route_based_on_verdict (initState "t") = "Fail" ∧
    (verdict_edges (route_based_on_verdict (initState "t"))).isSome = true :=
  ⟨by decide, (route_total (initState "t")).2.1 (by decide),
   (route_total (initState "t")).2.2⟩

/-- C10: a raw result with no "url" key is handled with the empty string in
the source filter — never classified as a video — and is kept by the filter
exactly when its content-plus-title text passes the language filter. -/
theorem missing_url_kept (detect : String → Except Unit String)
    (results : List RawResult) (r : RawResult) (hurl : r.url = none) :
    is_youtube r = false ∧
    (r ∈ filter_results detect results ↔
      r ∈ results ∧
        is_english detect (pyGet r.content ++ " " ++ pyGet r.title) = true) := by
  have hyt : is_youtube r = false := by
    rw [is_youtube, hurl]
    decide
  refine ⟨hyt, ?_⟩
  rw [filter_results, List.mem_filter]
  simp [hyt]

/-- C10 witness: a url-less English result is non-video and kept by the
filter. -/
theorem missing_url_kept_w :
    noUrlResult.url = none ∧ is_youtube noUrlResult = false ∧
    (noUrlResult ∈ filter_results noDetect [noUrlResult] ↔
      noUrlResult ∈ [noUrlResult] ∧
        is_english noDetect
          (pyGet noUrlResult.content ++ " " ++ pyGet noUrlResult.title) = true) :=
  ⟨rfl, (missing_url_kept noDetect [noUrlResult] noUrlResult rfl).1,
   (missing_url_kept noDetect [noUrlResult] noUrlResult rfl).2⟩

end BlogGen
